import Mathlib

/-!
Verification of the pdf-signer repository (src/app.py and src/sign_all.py).

The two entry points share the same logical core: a PKCS#12 credential
loader, a bottom-right signature-box calculator, a signature-metadata
(dictionary) builder, page-size lookup with negative-index resolution,
and a signing wrapper that appends the CMS incremental-update bytes
produced by the external `endesive` library to the original PDF bytes.

External collaborators (pypdf's `PdfReader`, `endesive`'s `pdf.cms.sign`,
the `cryptography` PKCS#12 decoder) are modelled as abstract parameters:
a parsed document structure, an arbitrary byte-producing function, and an
arbitrary decoder function respectively.  Python floats are modelled as
rationals, byte strings as `List Nat`, Python dicts with a fixed key set
as structures with `Option` fields for the keys that may be absent.
-/

/-- Error kinds of the design (section 7 of the design document).
Python raises exceptions; the embedding returns `Except SignError`. -/
inductive SignError where
  | PageIndexOutOfRange
  | InvalidSignatureRequest
  | InvalidCredential
  | MalformedDocument
  | SigningFailure
deriving DecidableEq, Repr

/-- A page as seen through pypdf: its mediabox width and height in points. -/
structure Page where
  width : ℚ
  height : ℚ
deriving DecidableEq, Repr

/-- A parsed PDF document as seen through pypdf's `PdfReader`:
the sequence of its pages. -/
structure PdfDocument where
  pages : List Page
deriving DecidableEq, Repr

/-- A UTC wall-clock instant, the output of Python's
`datetime.now(timezone.utc)` restricted to the fields the code formats. -/
structure DateTime where
  year : Nat
  month : Nat
  day : Nat
  hour : Nat
  minute : Nat
  second : Nat
deriving DecidableEq, Repr

/-- A signature box rectangle `(x1, y1, x2, y2)` in PDF points. -/
abbrev Box := ℚ × ℚ × ℚ × ℚ

/-- The signature dictionary handed to `endesive.pdf.cms.sign`.
The Python dict always carries the first six keys; `sigpage` and
`signaturebox` are present only when the signature is visible, hence
`Option` fields (`none` = key absent). -/
structure SigDict where
  sigflags : Nat
  contact : String
  location : String
  signingdate : String
  reason : String
  signature : String
  sigpage : Option Int
  signaturebox : Option Box
deriving DecidableEq, Repr

/-- Left-pad the decimal representation of `n` with zeros to width `w`:
the behaviour of a zero-padded fixed-width `strftime` conversion. -/
def padZeros (w : Nat) (n : Nat) : String :=
  let s := toString n
  String.mk (List.replicate (w - s.length) '0') ++ s

/-- `datetime.now(timezone.utc).strftime("D:%Y%m%d%H%M%S+00'00'")`:
the PDF-date formatting used by both `signature_dict` (src/app.py line 40)
and `_signature_dict` (src/sign_all.py line 103).  The apostrophes of the
literal suffix are written with `\x27` escapes. -/
def pdfDate (t : DateTime) : String :=
  "D:" ++ padZeros 4 t.year ++ padZeros 2 t.month ++ padZeros 2 t.day ++
    padZeros 2 t.hour ++ padZeros 2 t.minute ++ padZeros 2 t.second ++ "+00\x2700\x27"

/-- `signature_dict` of src/app.py (lines 29-52).  The current clock value
(read inside the Python function via `datetime.now`) is passed explicitly
as `now`; default arguments of the Python signature are supplied by
callers. -/
def signature_dict (now : DateTime) (visible : Bool) (page_index : Int)
    (box : Box) (reason location contact : String) : SigDict :=
  let signing_date := pdfDate now
  let dct : SigDict :=
    { sigflags := 3
      contact := contact
      location := location
      signingdate := signing_date
      reason := reason
      signature := "FIRMA DIGITAL: ENZO GAROFALO LANZUISI"
      sigpage := none
      signaturebox := none }
  if visible then
    { dct with sigpage := some page_index, signaturebox := some box }
  else dct

/-- `_signature_dict` of src/sign_all.py (lines 73-116); identical to the
app.py builder except for the capitalisation of the field name string. -/
def signature_dict_file (now : DateTime) (visible : Bool) (page_index : Int)
    (box : Box) (reason location contact : String) : SigDict :=
  let signing_date := pdfDate now
  let dct : SigDict :=
    { sigflags := 3
      contact := contact
      location := location
      signingdate := signing_date
      reason := reason
      signature := "Firma Digital: ENZO GAROFALO LANZUISI"
      sigpage := none
      signaturebox := none }
  if visible then
    { dct with sigpage := some page_index, signaturebox := some box }
  else dct

/-- `get_page_size` of src/app.py (lines 60-70), on the document the input
bytes parse to.  The Python code resolves every negative `page_index` to
`len(reader.pages) - 1` and then indexes `reader.pages`; an out-of-range
index raises `IndexError` (the design's `PageIndexOutOfRange`).  The only
way the resolved index is negative is the zero-page document (resolved
index -1), where Python's negative-index wrap also lands out of range, so
the guard below is exactly the Python behaviour. -/
def get_page_size (reader : PdfDocument) (page_index : Int) :
    Except SignError (ℚ × ℚ) :=
  let idx : Int := if page_index < 0 then (reader.pages.length : Int) - 1 else page_index
  if 0 ≤ idx then
    match reader.pages.get? idx.toNat with
    | some page => .ok (page.width, page.height)
    | none => .error .PageIndexOutOfRange
  else .error .PageIndexOutOfRange

/-- `get_page_size` of src/sign_all.py (lines 11-33), on the document that
the file at `pdf_path` parses to; same body as the app.py version. -/
def get_page_size_file (reader : PdfDocument) (page_index : Int) :
    Except SignError (ℚ × ℚ) :=
  let idx : Int := if page_index < 0 then (reader.pages.length : Int) - 1 else page_index
  if 0 ≤ idx then
    match reader.pages.get? idx.toNat with
    | some page => .ok (page.width, page.height)
    | none => .error .PageIndexOutOfRange
  else .error .PageIndexOutOfRange

/-- `bottom_right_box` of src/app.py (lines 73-89). -/
def bottom_right_box (width height box_w box_h margin_right margin_bottom : ℚ) : Box :=
  let x2 := width - margin_right
  let x1 := x2 - box_w
  let y1 := margin_bottom
  let y2 := y1 + box_h
  (x1, y1, x2, y2)

/-- `compute_bottom_right_box` of src/sign_all.py (lines 36-56). -/
def compute_bottom_right_box (width height box_w box_h margin_right margin_bottom : ℚ) : Box :=
  let x2 := width - margin_right
  let x1 := x2 - box_w
  let y1 := margin_bottom
  let y2 := y1 + box_h
  (x1, y1, x2, y2)

/-- UTF-8 encoding of one character (code point to byte sequence), used to
model Python's `str.encode("utf-8")`. -/
def utf8EncodeChar (c : Char) : List Nat :=
  let n := c.toNat
  if n < 128 then [n]
  else if n < 2048 then [192 + n / 64, 128 + n % 64]
  else if n < 65536 then [224 + n / 4096, 128 + (n / 64) % 64, 128 + n % 64]
  else [240 + n / 262144, 128 + (n / 4096) % 64, 128 + (n / 64) % 64, 128 + n % 64]

/-- Python's `s.encode("utf-8")` as a byte list. -/
def utf8Encode (s : String) : List Nat :=
  s.data.flatMap utf8EncodeChar

/-- The password argument src/app.py's `load_pkcs12_from_bytes` (lines
19-26) hands to `pkcs12.load_key_and_certificates`: the Python expression
`password.encode("utf-8") if password else None`, where an empty string is
falsy, so the empty passphrase becomes `None` (here `none`). -/
def pkcs12PasswordArg (password : String) : Option (List Nat) :=
  if password = "" then none else some (utf8Encode password)

/-- The password argument src/sign_all.py's `_load_pkcs12` (lines 59-70)
hands to `pkcs12.load_key_and_certificates`: the unconditional
`password.encode("utf-8")`, so the empty passphrase becomes the empty byte
string. -/
def pkcs12PasswordArgFile (password : String) : Option (List Nat) :=
  some (utf8Encode password)

/-- `load_pkcs12_from_bytes` of src/app.py (lines 19-26).  The external
`pkcs12.load_key_and_certificates` decoder is an abstract parameter
returning `(key, cert, optional ca list)`; the Python `ca_list or []`
normalisation becomes `Option.getD []`. -/
def load_pkcs12_from_bytes (K C : Type)
    (decoder : List Nat → Option (List Nat) → K × C × Option (List C))
    (p12_bytes : List Nat) (password : String) : K × C × List C :=
  let r := decoder p12_bytes (pkcs12PasswordArg password)
  (r.1, r.2.1, r.2.2.getD [])

/-- `_load_pkcs12` of src/sign_all.py (lines 59-70), applied to the bytes
read from the `.p12` file; note the password argument is always the
utf-8 encoding, never `none`. -/
def load_pkcs12_file (K C : Type)
    (decoder : List Nat → Option (List Nat) → K × C × Option (List C))
    (p12_data : List Nat) (password : String) : K × C × List C :=
  let r := decoder p12_data (pkcs12PasswordArgFile password)
  (r.1, r.2.1, r.2.2.getD [])

/-- `sign_pdf_bytes` of src/app.py (lines 97-142).  `cmsSign` abstracts
`endesive.pdf.cms.sign(pdf_bytes, dct, key, cert, ca_list, "sha256")`
(credentials bundled in the opaque `creds : K`); `readPdf` abstracts
pypdf's parsing of the byte string; `now` is the clock value read inside
`signature_dict`.  Exceptions (page index out of range) are the `Except`
error channel.  When the result is `ok`, it is the original bytes followed
by the CMS incremental-update bytes. -/
def sign_pdf_bytes {K : Type} (cmsSign : List Nat → SigDict → K → String → List Nat)
    (readPdf : List Nat → PdfDocument) (now : DateTime)
    (pdf_bytes : List Nat) (creds : K) (visible : Bool) (page_index : Int)
    (br_box : Option Box) (reason location contact : String) :
    Except SignError (List Nat) := do
  let dct ←
    if visible then do
      let box ←
        match br_box with
        | none => do
            let wh ← get_page_size (readPdf pdf_bytes) page_index
            pure (bottom_right_box wh.1 wh.2 160 84 24 24)
        | some b => pure b
      pure (signature_dict now true page_index box reason location contact)
    else
      pure (signature_dict now false page_index (36, 36, 196, 120) reason location contact)
  let signed_append := cmsSign pdf_bytes dct creds "sha256"
  pure (pdf_bytes ++ signed_append)

/-- `sign_pdf_file` of src/sign_all.py (lines 119-176).  `pdf_bytes` are
the bytes of the input file, `doc` the document they parse to (pypdf),
`creds` the credentials loaded from the PKCS#12 file, `cmsSign` the
external `endesive.pdf.cms.sign`.  The returned value is the byte content
written to the output file (original bytes, then the signature append);
`_signature_dict` is called with its Python default reason, location and
contact. -/
def sign_pdf_file {K : Type} (cmsSign : List Nat → SigDict → K → String → List Nat)
    (now : DateTime) (pdf_bytes : List Nat) (doc : PdfDocument) (creds : K)
    (visible : Bool) (page_index : Int) (box : Box) :
    Except SignError (List Nat) := do
  let box ←
    if visible then do
      let wh ← get_page_size_file doc page_index
      pure (compute_bottom_right_box wh.1 wh.2 160 84 24 24)
    else pure box
  let dct := signature_dict_file now visible page_index box
      "Aprobación de documento" "Sabadell, ES" "it@empresa.com"
  let signed_bytes := cmsSign pdf_bytes dct creds "sha256"
  pure (pdf_bytes ++ signed_bytes)

/-- A fixed clock instant used by concrete witnesses and counterexamples:
2025-01-02 03:04:05 UTC. -/
def now0 : DateTime := ⟨2025, 1, 2, 3, 4, 5⟩

/-- A concrete two-page document with distinguishable page sizes:
page 0 is 100 x 200 points, page 1 is 300 x 400 points. -/
def twoPageDoc : PdfDocument := ⟨[⟨100, 200⟩, ⟨300, 400⟩]⟩

/-- C3: the signature-box calculator satisfies exactly
`x2 = page_width - margin_right`, `x1 = x2 - box_w`, `y1 = margin_bottom`,
`y2 = y1 + box_h`; consequently `x2 - x1 = box_w` and `y2 - y1 = box_h`
for every input (no clamping, identical inputs give identical output
because the function is pure); `compute_bottom_right_box` of sign_all.py
computes the same rectangle, so it satisfies the same equations. -/
theorem bottom_right_box_spec (w h bw bh mr mb : ℚ) :
    (bottom_right_box w h bw bh mr mb).2.2.1 = w - mr ∧
    (bottom_right_box w h bw bh mr mb).1 =
      (bottom_right_box w h bw bh mr mb).2.2.1 - bw ∧
    (bottom_right_box w h bw bh mr mb).2.1 = mb ∧
    (bottom_right_box w h bw bh mr mb).2.2.2 =
      (bottom_right_box w h bw bh mr mb).2.1 + bh ∧
    (bottom_right_box w h bw bh mr mb).2.2.1 -
      (bottom_right_box w h bw bh mr mb).1 = bw ∧
    (bottom_right_box w h bw bh mr mb).2.2.2 -
      (bottom_right_box w h bw bh mr mb).2.1 = bh ∧
    bottom_right_box w h bw bh mr mb = compute_bottom_right_box w h bw bh mr mb := by
  refine ⟨rfl, rfl, rfl, rfl, ?_, ?_, rfl⟩ <;> simp [bottom_right_box]

/-- C10: the two entry points' box calculators are extensionally equal. -/
theorem box_calculators_agree (w h bw bh mr mb : ℚ) :
    bottom_right_box w h bw bh mr mb = compute_bottom_right_box w h bw bh mr mb := rfl

/-- C5: with `visible = false` both metadata builders omit the `sigpage`
and `signaturebox` entries, whatever the page index and box arguments. -/
theorem invisible_omits_page_and_box (now : DateTime) (page_index : Int)
    (box : Box) (reason location contact : String) :
    (signature_dict now false page_index box reason location contact).sigpage = none ∧
    (signature_dict now false page_index box reason location contact).signaturebox = none ∧
    (signature_dict_file now false page_index box reason location contact).sigpage = none ∧
    (signature_dict_file now false page_index box reason location contact).signaturebox = none :=
  ⟨rfl, rfl, rfl, rfl⟩

/-- C4 counterexample: called with `visible = true` and the malformed box
`(10, 10, 5, 5)` (so `x1 = 10 ≥ x2 = 5` and `y1 = 10 ≥ y2 = 5`), both
builders do not fail with `InvalidSignatureRequest`: they return a
signature dictionary that carries that very box. -/
theorem builder_accepts_malformed_box :
    ¬ ((10 : ℚ) < 5) ∧
    (signature_dict now0 true 0 (10, 10, 5, 5) "r" "l" "c").signaturebox =
      some (10, 10, 5, 5) ∧
    (signature_dict_file now0 true 0 (10, 10, 5, 5) "r" "l" "c").signaturebox =
      some (10, 10, 5, 5) := by
  refine ⟨by norm_num, rfl, rfl⟩

/-- C4 amended: the metadata builders perform no well-formedness check at
all: with `visible = true` they always return a dictionary echoing the
given page index and box verbatim, even when `x1 ≥ x2` or `y1 ≥ y2`;
no input makes them fail. -/
theorem builder_no_box_validation (now : DateTime) (page_index : Int)
    (box : Box) (reason location contact : String) :
    (signature_dict now true page_index box reason location contact).sigpage =
      some page_index ∧
    (signature_dict now true page_index box reason location contact).signaturebox =
      some box ∧
    (signature_dict_file now true page_index box reason location contact).sigpage =
      some page_index ∧
    (signature_dict_file now true page_index box reason location contact).signaturebox =
      some box :=
  ⟨rfl, rfl, rfl, rfl⟩

/-- The last element of a list is its entry at position `length - 1`. -/
theorem getLast?_as_get? {α : Type} (l : List α) : l.getLast? = l.get? (l.length - 1) := by
  induction l with
  | nil => rfl
  | cons a l ih =>
    cases l with
    | nil => rfl
    | cons b t =>
      rw [List.getLast?_cons_cons, ih]
      simp [List.get?]

/-- C2 counterexample: on the two-page document (page 0 is 100 x 200,
page 1 is 300 x 400), `target_page_index = -2` does not resolve to
`page_count - 1 + (index + 1) = 0` (the second-to-last page, size
100 x 200) as the claim states: both `get_page_size` functions return the
last page's size, 300 x 400. -/
theorem page_resolution_claim_false :
    get_page_size twoPageDoc (-2) = Except.ok (300, 400) ∧
    get_page_size_file twoPageDoc (-2) = Except.ok (300, 400) ∧
    get_page_size twoPageDoc (-2) ≠ Except.ok (100, 200) := by
  refine ⟨rfl, rfl, ?_⟩
  intro h
  rw [show get_page_size twoPageDoc (-2) = Except.ok (300, 400) from rfl] at h
  simp at h

/-- C2 amended: every negative `target_page_index` resolves to the last
page (`page_count - 1`), regardless of how negative; a nonnegative index
looks up that page directly; any resolved index outside
`[0, page_count)` — in particular every index on a zero-page document —
fails with `PageIndexOutOfRange`.  The sign_all.py variant behaves
identically. -/
theorem page_resolution_amended (doc : PdfDocument) (i : Int) :
    (get_page_size doc i =
      if i < 0 then
        match doc.pages.getLast? with
        | some p => Except.ok (p.width, p.height)
        | none => Except.error SignError.PageIndexOutOfRange
      else
        match doc.pages.get? i.toNat with
        | some p => Except.ok (p.width, p.height)
        | none => Except.error SignError.PageIndexOutOfRange) ∧
    get_page_size_file doc i = get_page_size doc i := by
  refine ⟨?_, rfl⟩
  unfold get_page_size
  by_cases hi : i < 0
  · simp only [if_pos hi]
    cases hl : doc.pages with
    | nil => simp
    | cons a t =>
      have hlen : ((a :: t).length : Int) - 1 = (t.length : Int) := by
        simp
      rw [hlen, if_pos (Int.ofNat_nonneg _), getLast?_as_get?]
      simp
  · simp only [if_neg hi, if_pos (Int.not_lt.mp hi)]

/-- C7 counterexample: with the empty passphrase, sign_all.py's
`_load_pkcs12` hands the PKCS#12 decoder the empty byte string
(`some []`), not "no password" (`none`); app.py's `load_pkcs12_from_bytes`
does hand it `none`.  The decoder used here simply reports the password
argument it received. -/
theorem passphrase_empty_bytes_counterexample :
    (load_pkcs12_file (Option (List Nat)) Nat (fun _ pw => (pw, 0, none)) [] "").1 =
      some [] ∧
    some ([] : List Nat) ≠ (none : Option (List Nat)) ∧
    (load_pkcs12_from_bytes (Option (List Nat)) Nat (fun _ pw => (pw, 0, none)) [] "").1 =
      none := by
  refine ⟨rfl, by simp, rfl⟩

/-- C7 amended: app.py's loader passes `none` ("no password") exactly for
the empty passphrase and the utf-8 bytes otherwise, while sign_all.py's
loader always passes the utf-8 encoding, so its empty passphrase reaches
the decoder as the empty byte string. -/
theorem passphrase_arg_amended (password : String) :
    (pkcs12PasswordArg password = none ↔ password = "") ∧
    pkcs12PasswordArgFile password = some (utf8Encode password) ∧
    pkcs12PasswordArgFile "" = some [] := by
  refine ⟨?_, rfl, rfl⟩
  unfold pkcs12PasswordArg
  by_cases h : password = "" <;> simp [h]

/-- C8: with `visible = true`, `sign_pdf_file`'s output does not depend on
the caller-supplied box: the box is unconditionally recomputed as the
bottom-right box of the target page with the fixed defaults
`box_w = 160, box_h = 84, margin_right = 24, margin_bottom = 24`. -/
theorem sign_pdf_file_box_independent (K : Type)
    (cmsSign : List Nat → SigDict → K → String → List Nat) (now : DateTime)
    (pdf_bytes : List Nat) (doc : PdfDocument) (creds : K) (page_index : Int)
    (b1 b2 : Box) :
    sign_pdf_file cmsSign now pdf_bytes doc creds true page_index b1 =
      sign_pdf_file cmsSign now pdf_bytes doc creds true page_index b2 := rfl

/-- C9: with `visible = false`, `sign_pdf_bytes`'s output does not depend
on the `page_index` and `br_box` arguments: the invisible branch builds a
dictionary with neither page nor box entry. -/
theorem sign_pdf_bytes_invisible_independent (K : Type)
    (cmsSign : List Nat → SigDict → K → String → List Nat)
    (readPdf : List Nat → PdfDocument) (now : DateTime)
    (pdf_bytes : List Nat) (creds : K) (p1 p2 : Int) (b1 b2 : Option Box)
    (reason location contact : String) :
    sign_pdf_bytes cmsSign readPdf now pdf_bytes creds false p1 b1 reason location contact =
      sign_pdf_bytes cmsSign readPdf now pdf_bytes creds false p2 b2 reason location contact := rfl

/-- C1: whenever signing succeeds, the output begins with a prefix of
length `pdf_bytes.length` byte-identical to the input, and is exactly the
original bytes followed by the appended incremental-update bytes; this
holds for `sign_pdf_bytes` (app.py) and for the bytes `sign_pdf_file`
(sign_all.py) writes to the output file. -/
theorem signed_output_extends_original (K : Type)
    (cmsSign : List Nat → SigDict → K → String → List Nat)
    (readPdf : List Nat → PdfDocument) (now : DateTime)
    (pdf_bytes : List Nat) (creds : K) (visible : Bool) (page_index : Int)
    (br_box : Option Box) (reason location contact : String)
    (doc : PdfDocument) (fileBox : Box) (out1 out2 : List Nat)
    (h1 : sign_pdf_bytes cmsSign readPdf now pdf_bytes creds visible page_index
        br_box reason location contact = Except.ok out1)
    (h2 : sign_pdf_file cmsSign now pdf_bytes doc creds visible page_index fileBox =
        Except.ok out2) :
    (out1.take pdf_bytes.length = pdf_bytes ∧
      out1 = pdf_bytes ++ out1.drop pdf_bytes.length) ∧
    (out2.take pdf_bytes.length = pdf_bytes ∧
      out2 = pdf_bytes ++ out2.drop pdf_bytes.length) := by
  have shape1 : ∃ s, out1 = pdf_bytes ++ s := by
    unfold sign_pdf_bytes at h1
    cases visible
    · simp only [Bool.false_eq_true, if_false, bind, Except.bind, pure, Except.pure,
        Except.ok.injEq] at h1
      exact ⟨_, h1.symm⟩
    · cases br_box with
      | none =>
        cases hg : get_page_size (readPdf pdf_bytes) page_index with
        | error e =>
          simp only [if_true, hg, bind, Except.bind, pure, Except.pure] at h1
          cases h1
        | ok wh =>
          simp only [if_true, hg, bind, Except.bind, pure, Except.pure,
            Except.ok.injEq] at h1
          exact ⟨_, h1.symm⟩
      | some b =>
        simp only [if_true, bind, Except.bind, pure, Except.pure,
          Except.ok.injEq] at h1
        exact ⟨_, h1.symm⟩
  have shape2 : ∃ s, out2 = pdf_bytes ++ s := by
    unfold sign_pdf_file at h2
    cases visible
    · simp only [Bool.false_eq_true, if_false, bind, Except.bind, pure, Except.pure,
        Except.ok.injEq] at h2
      exact ⟨_, h2.symm⟩
    · cases hg : get_page_size_file doc page_index with
      | error e =>
        simp only [if_true, hg, bind, Except.bind, pure, Except.pure] at h2
        cases h2
      | ok wh =>
        simp only [if_true, hg, bind, Except.bind, pure, Except.pure,
          Except.ok.injEq] at h2
        exact ⟨_, h2.symm⟩
  obtain ⟨s1, rfl⟩ := shape1
  obtain ⟨s2, rfl⟩ := shape2
  refine ⟨⟨List.take_left pdf_bytes s1, ?_⟩, ⟨List.take_left pdf_bytes s2, ?_⟩⟩
  · rw [List.drop_left]
  · rw [List.drop_left]

/-- C1 witness: invisible signing of the concrete two-byte document
`[37, 80]` with a CMS stub that appends `[7, 8]` succeeds in both entry
points, and the outputs extend the original bytes. -/
theorem signed_output_extends_original_witness :
    (([37, 80, 7, 8] : List Nat).take 2 = [37, 80] ∧
      ([37, 80, 7, 8] : List Nat) = [37, 80] ++ ([37, 80, 7, 8] : List Nat).drop 2) ∧
    (([37, 80, 7, 8] : List Nat).take 2 = [37, 80] ∧
      ([37, 80, 7, 8] : List Nat) = [37, 80] ++ ([37, 80, 7, 8] : List Nat).drop 2) := by
  have h := signed_output_extends_original Unit (fun _ _ _ _ => [7, 8])
    (fun _ => twoPageDoc) now0 [37, 80] () false (-1) none "r" "l" "c"
    twoPageDoc (36, 36, 196, 120) [37, 80, 7, 8] [37, 80, 7, 8] rfl rfl
  exact h

/-- Zero-padding to width `w` yields length exactly `w` whenever the
decimal representation fits in `w` characters. -/
theorem padZeros_length (w n : Nat) (h : (toString n).length ≤ w) :
    (padZeros w n).length = w := by
  simp only [padZeros, String.length_append]
  have hrep : (String.mk (List.replicate (w - (toString n).length) '0')).length =
      w - (toString n).length := List.length_replicate _ _
  rw [hrep]
  omega

/-- C6: both metadata builders always set the approval flags value 3, the
signing date `pdfDate now` — the embedding of
`strftime("D:%Y%m%d%H%M%S+00'00'")` on the current UTC clock — and the
fixed signer display-name entry, whether or not the signature is visible;
and whenever the clock components fit their conversion widths the date
string has exactly the 23 characters of that fixed format. -/
theorem builder_constant_fields (now : DateTime) (visible : Bool)
    (page_index : Int) (box : Box) (reason location contact : String) :
    ((signature_dict now visible page_index box reason location contact).sigflags = 3 ∧
      (signature_dict now visible page_index box reason location contact).signingdate =
        pdfDate now ∧
      (signature_dict now visible page_index box reason location contact).signature =
        "FIRMA DIGITAL: ENZO GAROFALO LANZUISI") ∧
    ((signature_dict_file now visible page_index box reason location contact).sigflags = 3 ∧
      (signature_dict_file now visible page_index box reason location contact).signingdate =
        pdfDate now ∧
      (signature_dict_file now visible page_index box reason location contact).signature =
        "Firma Digital: ENZO GAROFALO LANZUISI") ∧
    ((toString now.year).length ≤ 4 → (toString now.month).length ≤ 2 →
      (toString now.day).length ≤ 2 → (toString now.hour).length ≤ 2 →
      (toString now.minute).length ≤ 2 → (toString now.second).length ≤ 2 →
      (pdfDate now).length = 23) := by
  refine ⟨?_, ?_, ?_⟩
  · cases visible <;> exact ⟨rfl, rfl, rfl⟩
  · cases visible <;> exact ⟨rfl, rfl, rfl⟩
  · intro h1 h2 h3 h4 h5 h6
    simp only [pdfDate, String.length_append, padZeros_length _ _ h1,
      padZeros_length _ _ h2, padZeros_length _ _ h3, padZeros_length _ _ h4,
      padZeros_length _ _ h5, padZeros_length _ _ h6]
    decide

/-- C6 witness: at the concrete clock instant `now0`
(2025-01-02 03:04:05 UTC) the visible app.py dictionary carries flags 3,
the formatted date of `now0`, the fixed signer name, and the date string
has 23 characters. -/
theorem builder_constant_fields_witness :
    (signature_dict now0 true 0 (1, 2, 3, 4) "r" "l" "c").sigflags = 3 ∧
    (signature_dict now0 true 0 (1, 2, 3, 4) "r" "l" "c").signingdate = pdfDate now0 ∧
    (pdfDate now0).length = 23 := by
  have h := builder_constant_fields now0 true 0 (1, 2, 3, 4) "r" "l" "c"
  exact ⟨h.1.1, h.1.2.1,
    h.2.2 (by decide) (by decide) (by decide) (by decide) (by decide) (by decide)⟩
